import Mathlib

/-
Verification of the wasmer-based WASI harness (src/src/main.rs).

The harness has no algorithmic core of its own: it configures a guest
execution environment (`create_wasi_env`), loads a module, merges the
WASI import object with a custom import table, instantiates, drives the
entry point, cleans up, drains captured stdout/stderr and reports.

The embedding below models:
  * `create_wasi_env` directly from the source (pipe allocation is made
    explicit with a fresh-channel counter standing in for `Pipe::channel`);
  * the driver `start` as a function from an oracle (`World`) describing
    the outcomes of the external-runtime calls to a final `Outcome`
    together with the ordered trace of observable events (status
    transition, entry call, cleanup, printed lines), following the
    control flow of `fn start` line by line;
  * the import-table operations (`register`, merge by extend-after) from
    the spec, since their implementations live in the external wasmer
    crate and not in this repository.
-/

namespace Nor2

/-- Wasm value kinds, as in `wasmer::Type` restricted to the kinds the
harness uses (`I32`, `I64`, `F32`, `F64`). -/
inductive Kind where
  | i32
  | i64
  | f32
  | f64
deriving DecidableEq, Repr

/-- Signature of an import function, as in `wasmer::FunctionType`:
ordered parameter kinds and ordered result kinds. -/
structure FunctionTypeM where
  params : List Kind
  results : List Kind
deriving DecidableEq, Repr

/-- HTTP client capability, as in `HttpClientCapabilityV1`; the harness
only ever builds it with `new_allow_all()`. -/
structure HttpClientCap where
  allow_all : Bool
deriving DecidableEq, Repr

/-- Mirrors `HttpClientCapabilityV1::new_allow_all()`. -/
def HttpClientCap.new_allow_all : HttpClientCap :=
  { allow_all := true }

/-- Threading capability, as in `CapabilityThreadingV1`. -/
structure ThreadingCap where
  max_threads : Option Nat
  enable_asynchronous_threading : Bool
deriving DecidableEq, Repr

/-- Mirrors `CapabilityThreadingV1::default()`. -/
def ThreadingCap.default : ThreadingCap :=
  { max_threads := none, enable_asynchronous_threading := false }

/-- Capability set handed to the environment builder, as in
`wasmer_wasix::capabilities::Capabilities` (the three fields the
harness sets). -/
structure Capabilities where
  insecure_allow_all : Bool
  http_client : HttpClientCap
  threading : ThreadingCap
deriving DecidableEq, Repr

/-- One end of a captured stream.  `virtual_fs::Pipe::channel()` returns
two connected ends; we tag each end with the channel it belongs to and
which of the two returned ends it is. -/
structure PipeEnd where
  channel : Nat
  first_of_pair : Bool
deriving DecidableEq, Repr

/-- Mirrors `Pipe::channel()`: allocates a fresh channel and returns its
two ends, threading a fresh-channel counter. -/
def pipeChannel (c : Nat) : (PipeEnd × PipeEnd) × Nat :=
  (({ channel := c, first_of_pair := true },
    { channel := c, first_of_pair := false }), c + 1)

/-- The builder state assembled by `create_wasi_env`, as in
`WasiEnvBuilder` after the chained calls in the source: program name,
runtime handle, capabilities, and the three guest-facing stream ends. -/
structure WasiEnvBuilderM where
  prog_name : String
  runtime_handle : Nat
  capabilities : Capabilities
  stdin : PipeEnd
  stdout : PipeEnd
  stderr : PipeEnd
deriving DecidableEq, Repr

/-- Embedding of `fn create_wasi_env` (src/src/main.rs lines 18-38): it
allocates the three pipe pairs, wires the guest ends (`stdin_rx`,
`stdout`, `stderr`) into the builder and returns the host ends
(`stdin_tx`, `stdout_rx`, `stderr_rx`).  The `Nat` argument `c` is the
fresh-channel counter standing in for the allocator. -/
def create_wasi_env (capabilities : Capabilities) (runtime_handle : Nat) (c : Nat) :
    (WasiEnvBuilderM × PipeEnd × PipeEnd × PipeEnd) × Nat :=
  let r1 := pipeChannel c
  let stdin_tx := r1.1.1
  let stdin_rx := r1.1.2
  let r2 := pipeChannel r1.2
  let stdout_w := r2.1.1
  let stdout_rx := r2.1.2
  let r3 := pipeChannel r2.2
  let stderr_w := r3.1.1
  let stderr_rx := r3.1.2
  let builder : WasiEnvBuilderM :=
    { prog_name := "nor2"
      runtime_handle := runtime_handle
      capabilities := capabilities
      stdin := stdin_rx
      stdout := stdout_w
      stderr := stderr_w }
  ((builder, stdin_tx, stdout_rx, stderr_rx), r3.2)

/-- C8: for every capability set and runtime handle, `create_wasi_env`
allocates exactly three captured stream pairs (the counter advances by
three, channels `c`, `c+1`, `c+2`), wires one end of each pair into the
returned builder (stdin guest end, stdout and stderr guest ends), and
returns to the host the opposite end of each of the three pairs. -/
theorem c8_configure_allocates_three_streams (caps : Capabilities) (h c : Nat) :
    ((create_wasi_env caps h c).2 = c + 3) ∧
    (let r := (create_wasi_env caps h c).1
     r.1.stdin.channel = c ∧ r.2.1.channel = c ∧ r.1.stdin ≠ r.2.1 ∧
     r.1.stdout.channel = c + 1 ∧ r.2.2.1.channel = c + 1 ∧ r.1.stdout ≠ r.2.2.1 ∧
     r.1.stderr.channel = c + 2 ∧ r.2.2.2.channel = c + 2 ∧ r.1.stderr ≠ r.2.2.2 ∧
     r.1.capabilities = caps ∧ r.1.runtime_handle = h ∧ r.1.prog_name = "nor2") := by
  refine ⟨rfl, ?_⟩
  simp [create_wasi_env, pipeChannel]

/-- Errors of the typed import registry, from the spec (section 4.1):
`DuplicateImportError` for a repeated (namespace, name) key, and a
contract violation for a signature whose kinds do not match the
declared parameter/result kinds. -/
inductive RegError where
  | duplicateImport
  | contractViolation
deriving DecidableEq, Repr

/-- A host implementation: its own signature (the kinds of arguments it
consumes and of results it produces) together with the host callable. -/
structure HostImpl where
  param_kinds : List Kind
  result_kinds : List Kind
  run : List Int → List Int

/-- An ImportBinding, from the spec: an ImportSignature (namespace,
name, parameter kinds, result kinds) paired with the implementation. -/
structure ImportBinding where
  ns : String
  name : String
  param_kinds : List Kind
  result_kinds : List Kind
  impl : HostImpl

/-- Modelled from the spec: the registry operation
`register(namespace, name, param_kinds, result_kinds, implementation)`
(spec section 4.1) is implemented by the external wasmer crate, not by
code in src/.  It fails with `DuplicateImportError` if the
(namespace, name) key is already registered, and rejects at
registration time an implementation whose signature kinds do not match
the declared parameter/result kinds (a programming-contract
violation). -/
def register (s : List ImportBinding) (ns name : String)
    (pk rk : List Kind) (impl : HostImpl) :
    Except RegError (List ImportBinding) :=
  if s.any (fun b => b.ns == ns && b.name == name) then
    .error .duplicateImport
  else if impl.param_kinds == pk && impl.result_kinds == rk then
    .ok (s ++ [{ ns := ns, name := name, param_kinds := pk, result_kinds := rk, impl := impl }])
  else
    .error .contractViolation

/-- The registry state after a `register` call: unchanged when the call
fails, the returned set when it succeeds. -/
def registerResult (s : List ImportBinding) (ns name : String)
    (pk rk : List Kind) (impl : HostImpl) : List ImportBinding :=
  match register s ns name pk rk impl with
  | .ok s2 => s2
  | .error _ => s

/-- C3: registering a binding under a (namespace, name) pair already
present in the set fails with `DuplicateImportError`, and the registry
state is left unchanged (in particular every previously registered
binding is still present, unmodified). -/
theorem c3_duplicate_register_fails (s : List ImportBinding)
    (ns name : String) (pk rk : List Kind) (impl : HostImpl)
    (hdup : ∃ b ∈ s, b.ns = ns ∧ b.name = name) :
    register s ns name pk rk impl = .error .duplicateImport ∧
    registerResult s ns name pk rk impl = s := by
  obtain ⟨b, hb, hbs, hbn⟩ := hdup
  have hany : s.any (fun b => b.ns == ns && b.name == name) = true := by
    exact List.any_eq_true.mpr ⟨b, hb, by simp [hbs, hbn]⟩
  constructor
  · simp [register, hany]
  · simp [registerResult, register, hany]

/-- C3 witness: a concrete duplicate registration is rejected and the
one-element registry keeps its original binding. -/
theorem c3_duplicate_register_fails_witness :
    (register [{ ns := "wasi", name := "thread-spawn", param_kinds := [Kind.i32],
                 result_kinds := [Kind.i32],
                 impl := { param_kinds := [Kind.i32], result_kinds := [Kind.i32],
                           run := fun _ => [0] } }]
        "wasi" "thread-spawn" [Kind.i32] [Kind.i32]
        { param_kinds := [Kind.i32], result_kinds := [Kind.i32], run := fun _ => [1] }
      = .error .duplicateImport) ∧
    (registerResult [{ ns := "wasi", name := "thread-spawn", param_kinds := [Kind.i32],
                       result_kinds := [Kind.i32],
                       impl := { param_kinds := [Kind.i32], result_kinds := [Kind.i32],
                                 run := fun _ => [0] } }]
        "wasi" "thread-spawn" [Kind.i32] [Kind.i32]
        { param_kinds := [Kind.i32], result_kinds := [Kind.i32], run := fun _ => [1] }
      = [{ ns := "wasi", name := "thread-spawn", param_kinds := [Kind.i32],
           result_kinds := [Kind.i32],
           impl := { param_kinds := [Kind.i32], result_kinds := [Kind.i32],
                     run := fun _ => [0] } }]) :=
  c3_duplicate_register_fails _ "wasi" "thread-spawn" [Kind.i32] [Kind.i32] _
    ⟨_, List.mem_singleton.mpr rfl, rfl, rfl⟩

/-- C7: a binding whose implementation produces a result-kind sequence
of a different shape than the declared result kinds (for example
declared `[I32]` with an implementation producing zero results) is
rejected at registration time as a contract violation; `register` never
returns a successfully registered (silently truncated) binding for it. -/
theorem c7_result_mismatch_rejected (s : List ImportBinding)
    (ns name : String) (pk rk : List Kind) (impl : HostImpl)
    (hfresh : ¬ ∃ b ∈ s, b.ns = ns ∧ b.name = name)
    (hmism : impl.result_kinds ≠ rk) :
    register s ns name pk rk impl = .error .contractViolation ∧
    ∀ s2, register s ns name pk rk impl ≠ .ok s2 := by
  have hany : s.any (fun b => b.ns == ns && b.name == name) = false := by
    rw [List.any_eq_false]
    intro b hb
    simp only [Bool.and_eq_true, beq_iff_eq, not_and]
    intro h1 h2
    exact hfresh ⟨b, hb, h1, h2⟩
  have hsig : (impl.param_kinds == pk && impl.result_kinds == rk) = false := by
    simp [hmism]
  refine ⟨?_, ?_⟩
  · simp [register, hany, hsig]
  · intro s2
    simp [register, hany, hsig]

/-- C7 witness: the spec scenario — declared result kinds `[I32]`, an
implementation producing zero results — is rejected at registration. -/
theorem c7_result_mismatch_rejected_witness :
    register [] "strings" "b: func() -> string" [Kind.i32] [Kind.i32]
        { param_kinds := [Kind.i32], result_kinds := [], run := fun _ => [] }
      = .error .contractViolation :=
  (c7_result_mismatch_rejected [] "strings" "b: func() -> string" [Kind.i32] [Kind.i32]
    { param_kinds := [Kind.i32], result_kinds := [], run := fun _ => [] }
    (by simp) (by simp)).1

/-- An import table keyed by (namespace, name), as produced by the
`imports!` macro and by `import_object_for_all_wasi_versions`. -/
abbrev ImportTable (α : Type) : Type :=
  List ((String × String) × α)

/-- Lookup of a (namespace, name) key in an import table (first
matching entry). -/
def importLookup {α : Type} (k : String × String) : ImportTable α → Option α
  | [] => none
  | (k2, v) :: rest => if k = k2 then some v else importLookup k rest

/-- Modelled from the spec: `Imports::define` of the external wasmer
crate (not in src/) — insert one binding, overwriting any existing
binding under the same (namespace, name) key. -/
def importInsert {α : Type} (k : String × String) (v : α) : ImportTable α → ImportTable α
  | [] => [(k, v)]
  | (k2, v2) :: rest =>
      if k = k2 then (k, v) :: rest else (k2, v2) :: importInsert k v rest

/-- Modelled from the spec: `Imports::extend` of the external wasmer
crate (not in src/) — extend-after semantics, inserting each added
binding in order, each insertion overwriting a same-key binding of the
base table (so the table added second takes precedence). -/
def importExtend {α : Type} (base : ImportTable α) : ImportTable α → ImportTable α
  | [] => base
  | (k, v) :: rest => importExtend (importInsert k v base) rest

theorem importLookup_insert_self {α : Type} (k : String × String) (v : α)
    (t : ImportTable α) : importLookup k (importInsert k v t) = some v := by
  induction t with
  | nil => simp [importInsert, importLookup]
  | cons kv rest ih =>
      obtain ⟨k2, v2⟩ := kv
      by_cases h : k = k2
      · simp [importInsert, importLookup, h]
      · simp [importInsert, importLookup, h, ih]

theorem importLookup_insert_ne {α : Type} (k k2 : String × String) (v : α)
    (t : ImportTable α) (h : k ≠ k2) :
    importLookup k (importInsert k2 v t) = importLookup k t := by
  induction t with
  | nil => simp [importInsert, importLookup, h]
  | cons kv rest ih =>
      obtain ⟨k3, v3⟩ := kv
      by_cases h2 : k2 = k3
      · subst h2
        simp [importInsert, importLookup, h]
      · by_cases h3 : k = k3
        · simp [importInsert, importLookup, h2, h3]
        · simp [importInsert, importLookup, h2, h3, ih]

theorem importLookup_extend_not_mem {α : Type} (k : String × String)
    (adds : ImportTable α) (hk : importLookup k adds = none) :
    ∀ base : ImportTable α,
      importLookup k (importExtend base adds) = importLookup k base := by
  induction adds with
  | nil => intro base; simp [importExtend]
  | cons kv rest ih =>
      intro base
      obtain ⟨k2, v2⟩ := kv
      have hne : k ≠ k2 := by
        intro h
        simp [importLookup, h] at hk
      have hrest : importLookup k rest = none := by
        simpa [importLookup, hne] using hk
      simpa [importExtend] using
        (ih hrest (importInsert k2 v2 base)).trans
          (importLookup_insert_ne k k2 v2 base hne)

theorem importLookup_extend_mem {α : Type} (k : String × String)
    (adds : ImportTable α) (hnd : (adds.map Prod.fst).Nodup)
    (hk : (importLookup k adds).isSome) :
    ∀ base : ImportTable α,
      importLookup k (importExtend base adds) = importLookup k adds := by
  induction adds with
  | nil => simp [importLookup] at hk
  | cons kv rest ih =>
      intro base
      obtain ⟨k2, v2⟩ := kv
      by_cases h : k = k2
      · subst h
        rw [List.map_cons] at hnd
        have hrest : importLookup k rest = none := by
          have hkm : k ∉ rest.map Prod.fst := (List.nodup_cons.mp hnd).1
          clear ih hk hnd
          induction rest with
          | nil => simp [importLookup]
          | cons kv2 r2 ih2 =>
              obtain ⟨k3, v3⟩ := kv2
              have h1 : k ≠ k3 := by
                intro h
                exact hkm (by simp [h])
              have h2 : k ∉ r2.map Prod.fst := by
                intro h
                exact hkm (by simp [h])
              simp [importLookup, h1, ih2 h2]
        calc importLookup k (importExtend base ((k, v2) :: rest))
            = importLookup k (importExtend (importInsert k v2 base) rest) := by
              simp [importExtend]
          _ = importLookup k (importInsert k v2 base) :=
              importLookup_extend_not_mem k rest hrest _
          _ = some v2 := importLookup_insert_self k v2 base
          _ = importLookup k ((k, v2) :: rest) := by simp [importLookup]
      · rw [List.map_cons] at hnd
        have hnd2 : (rest.map Prod.fst).Nodup := (List.nodup_cons.mp hnd).2
        have hk2 : (importLookup k rest).isSome := by
          simpa [importLookup, h] using hk
        have := ih hnd2 hk2 (importInsert k2 v2 base)
        simpa [importExtend, importLookup, h] using this

/-- C4: merging the WASI import set with the custom table by
extend-after semantics, every key present in the custom table (whose
keys are unique, as the registry guarantees) resolves to the custom
table's binding — in particular keys present in both tables resolve to
the custom binding — and every key absent from the custom table keeps
exactly the WASI set's binding. -/
theorem c4_merge_precedence {α : Type} (wasi custom : ImportTable α)
    (k : String × String) (hnd : (custom.map Prod.fst).Nodup) :
    ((importLookup k custom).isSome →
      importLookup k (importExtend wasi custom) = importLookup k custom) ∧
    (importLookup k custom = none →
      importLookup k (importExtend wasi custom) = importLookup k wasi) := by
  constructor
  · intro hk
    exact importLookup_extend_mem k custom hnd hk wasi
  · intro hk
    exact importLookup_extend_not_mem k custom hk wasi

/-- C4 witness: on concrete tables, a key present in both resolves to
the custom binding and a key only in the WASI set is preserved. -/
theorem c4_merge_precedence_witness :
    (importLookup ("wasi", "thread-spawn")
        (importExtend [(("wasi", "thread-spawn"), 1), (("wasi", "fd_write"), 2)]
          [(("wasi", "thread-spawn"), 7)])
      = importLookup ("wasi", "thread-spawn") [(("wasi", "thread-spawn"), 7)]) ∧
    (importLookup ("wasi", "fd_write")
        (importExtend [(("wasi", "thread-spawn"), 1), (("wasi", "fd_write"), 2)]
          [(("wasi", "thread-spawn"), 7)])
      = importLookup ("wasi", "fd_write")
          [(("wasi", "thread-spawn"), 1), (("wasi", "fd_write"), 2)]) :=
  ⟨(c4_merge_precedence [(("wasi", "thread-spawn"), 1), (("wasi", "fd_write"), 2)]
      [(("wasi", "thread-spawn"), 7)] ("wasi", "thread-spawn") (by decide)).1 (by decide),
   (c4_merge_precedence [(("wasi", "thread-spawn"), 1), (("wasi", "fd_write"), 2)]
      [(("wasi", "thread-spawn"), 7)] ("wasi", "fd_write") (by decide)).2 (by decide)⟩

/-- The custom host-import table built by the `imports!` block of
`fn start` (src/src/main.rs lines 77-110): each entry records the
(namespace, name) key and the declared `FunctionType`. -/
def customImports : ImportTable FunctionTypeM :=
  [(("Integers", "a6: func(x: s32) -> ()"),
      { params := [Kind.i32], results := [] }),
   (("strings", "a: func(x: string) -> ()"),
      { params := [Kind.i32, Kind.i32], results := [] }),
   (("strings", "b: func() -> string"),
      { params := [Kind.i32], results := [] }),
   (("strings", "c: func(a: string, b: string) -> string"),
      { params := [Kind.i32, Kind.i32, Kind.i32, Kind.i32, Kind.i32], results := [] }),
   (("rust", "wasmImportFloat32Param"),
      { params := [Kind.f32], results := [] }),
   (("wasi", "thread-spawn"),
      { params := [Kind.i32], results := [Kind.i32] })]

/-- The capability set `fn start` constructs (src/src/main.rs lines
64-68): unrestricted access, allow-all HTTP client, default threading. -/
def startCapabilities : Capabilities :=
  { insecure_allow_all := true
    http_client := HttpClientCap.new_allow_all
    threading := ThreadingCap.default }

/-- Outcome of the guest entry-point call `start_func.call`: a normal
return, a trap returned as a `RuntimeError` value, or a host-visible
panic unwinding out of the call. -/
inductive CallOutcome where
  | success
  | trap (msg : String)
  | hostPanic
deriving DecidableEq, Repr

/-- Observable events of one driver execution, in order: environment
configuration with a capability set, linking of the merged import
table, the thread-status transition to running, the entry-point call,
the `cleanup` call, and each printed line. -/
inductive Event where
  | configureEnv (caps : Capabilities)
  | linked (table : ImportTable FunctionTypeM)
  | setStatusRunning
  | entryCall
  | cleanupCall
  | printLine (s : String)
deriving DecidableEq, Repr

/-- Result of `fn start` as seen by its caller: a normal `Ok(())`
return, a propagated fatal error (the `?` operator), or a panic
unwinding out of `start`. -/
inductive Outcome where
  | ok
  | fatal (e : String)
  | panicked
deriving DecidableEq, Repr

/-- Oracle for the external-runtime calls `fn start` makes: the outcome
of module compilation, environment finalization, WASI import-object
creation (with the produced WASI import table), instantiation,
`initialize`, whether the instance exports `_start`, the entry-point
call outcome, and the two stream drains (drained text or read error). -/
structure World where
  module_load : Except String Unit
  env_finalize : Except String Unit
  wasi_imports : Except String (ImportTable FunctionTypeM)
  instantiate : Except String Unit
  initialize_env : Except String Unit
  has_start_export : Bool
  call_outcome : CallOutcome
  stdout_drain : Except String String
  stderr_drain : Except String String

/-- The report printed for one drained stream: nothing when the
captured text is empty, one labelled line otherwise (the
`if ... != 0` checks around the `println!` calls). -/
def streamReport (label text : String) : List Event :=
  if text = "" then [] else [Event.printLine (label ++ text)]

/-- The tail of `fn start` after the entry-point call returned a
`Result` (src/src/main.rs lines 126-146): cleanup, drain stdout and
print it if nonempty, drain stderr and print it if nonempty, then print
"Success" on `Ok` or the runtime error on `Err`.  A failing drain
propagates as a fatal error via `?`. -/
def finishRun (w : World) (result : Except String Unit) (ev : List Event) :
    Outcome × List Event :=
  let ev1 := ev ++ [Event.cleanupCall]
  match w.stdout_drain with
  | .error e => (.fatal e, ev1)
  | .ok so =>
    let ev2 := ev1 ++ streamReport "Std out: " so
    match w.stderr_drain with
    | .error e => (.fatal e, ev2)
    | .ok se =>
      let ev3 := ev2 ++ streamReport "Std err: " se
      match result with
      | .ok _ => (.ok, ev3 ++ [Event.printLine "Success"])
      | .error m => (.ok, ev3 ++ [Event.printLine ("Runtime Error: " ++ m)])

/-- Embedding of `fn start` (src/src/main.rs lines 52-147), following
its control flow step by step: configure the environment with the
fixed capability set, load the module (`?`), finalize the environment
(`?`), build the WASI import object (`?`), extend it with the custom
table, instantiate (`?`), set the thread status to running, initialize
(`?`), look up the `_start` export with `.unwrap()` (a panic when the
export is missing), call it, and run the cleanup/drain/report tail.
A host-visible panic in the entry-point call unwinds out of `start`
before the tail runs. -/
def start (w : World) : Outcome × List Event :=
  let caps := startCapabilities
  let _env := create_wasi_env caps 0 0
  let ev0 := [Event.configureEnv caps]
  match w.module_load with
  | .error e => (.fatal e, ev0)
  | .ok _ =>
    match w.env_finalize with
    | .error e => (.fatal e, ev0)
    | .ok _ =>
      match w.wasi_imports with
      | .error e => (.fatal e, ev0)
      | .ok wasi =>
        let merged := importExtend wasi customImports
        let ev1 := ev0 ++ [Event.linked merged]
        match w.instantiate with
        | .error e => (.fatal e, ev1)
        | .ok _ =>
          let ev2 := ev1 ++ [Event.setStatusRunning]
          match w.initialize_env with
          | .error e => (.fatal e, ev2)
          | .ok _ =>
            if w.has_start_export then
              let ev3 := ev2 ++ [Event.entryCall]
              match w.call_outcome with
              | .hostPanic => (.panicked, ev3)
              | .success => finishRun w (.ok ()) ev3
              | .trap m => finishRun w (.error m) ev3
            else (.panicked, ev2)

theorem streamReport_mem {label text : String} {e : Event}
    (h : e ∈ streamReport label text) : ∃ s, e = Event.printLine s := by
  unfold streamReport at h
  split at h
  · simp at h
  · exact ⟨label ++ text, by simpa using h⟩

theorem finishRun_shape (w : World) (result : Except String Unit) (ev : List Event) :
    ∃ t : List Event, (finishRun w result ev).2 = ev ++ Event.cleanupCall :: t ∧
      ∀ e ∈ t, ∃ s, e = Event.printLine s := by
  unfold finishRun
  rcases hso : w.stdout_drain with e1 | so
  · exact ⟨[], by simp, by simp⟩
  · rcases hse : w.stderr_drain with e2 | se
    · refine ⟨streamReport "Std out: " so, by simp, ?_⟩
      intro e he
      exact streamReport_mem he
    · rcases result with m | u
      · refine ⟨streamReport "Std out: " so ++ streamReport "Std err: " se ++
          [Event.printLine ("Runtime Error: " ++ m)], by simp, ?_⟩
        intro e he
        rcases List.mem_append.mp he with h2 | h2
        · rcases List.mem_append.mp h2 with h3 | h3
          · exact streamReport_mem h3
          · exact streamReport_mem h3
        · exact ⟨"Runtime Error: " ++ m, by simpa using h2⟩
      · refine ⟨streamReport "Std out: " so ++ streamReport "Std err: " se ++
          [Event.printLine "Success"], by simp, ?_⟩
        intro e he
        rcases List.mem_append.mp he with h2 | h2
        · rcases List.mem_append.mp h2 with h3 | h3
          · exact streamReport_mem h3
          · exact streamReport_mem h3
        · exact ⟨"Success", by simpa using h2⟩

theorem all_print_not_special {t : List Event}
    (h : ∀ e ∈ t, ∃ s, e = Event.printLine s) :
    Event.cleanupCall ∉ t ∧ Event.entryCall ∉ t ∧ Event.setStatusRunning ∉ t ∧
      ∀ c, Event.configureEnv c ∉ t := by
  refine ⟨fun hm => ?_, fun hm => ?_, fun hm => ?_, fun c hm => ?_⟩
  all_goals obtain ⟨s, hs⟩ := h _ hm
  all_goals simp at hs

/-- C1 (amended): whenever the entry-point call returns to the harness
(success or trap, not a host-visible panic), `cleanup` is invoked
exactly once, strictly after the entry-point call.  The original
claim's guarantee for a panicking entry-point call does not hold (see
the counterexample): the cleanup call is written in straight-line code
after `start_func.call`, not in a finally position, so an unwinding
panic bypasses it. -/
theorem c1_cleanup_once_when_call_returns (w : World)
    (hc : Event.entryCall ∈ (start w).2)
    (hp : w.call_outcome ≠ CallOutcome.hostPanic) :
    (start w).2.count Event.cleanupCall = 1 ∧
    ∃ l1 l2, (start w).2 = l1 ++ Event.entryCall :: l2 ∧
      Event.cleanupCall ∉ l1 ∧ Event.cleanupCall ∈ l2 := by
  obtain ⟨ml, ef, wi, inst, ini, hs, co, so, se⟩ := w
  cases ml with
  | error e => simp [start] at hc
  | ok u =>
  cases ef with
  | error e => simp [start] at hc
  | ok u2 =>
  cases wi with
  | error e => simp [start] at hc
  | ok wl =>
  cases inst with
  | error e => simp [start] at hc
  | ok u3 =>
  cases ini with
  | error e => simp [start] at hc
  | ok u4 =>
  cases hs with
  | false => simp [start] at hc
  | true =>
  cases co with
  | hostPanic => exact absurd rfl hp
  | success =>
      obtain ⟨t, ht, hall⟩ := finishRun_shape
        ⟨.ok u, .ok u2, .ok wl, .ok u3, .ok u4, true, .success, so, se⟩ (.ok ())
        [Event.configureEnv startCapabilities,
         Event.linked (importExtend wl customImports),
         Event.setStatusRunning, Event.entryCall]
      have htr : (start ⟨.ok u, .ok u2, .ok wl, .ok u3, .ok u4, true, .success, so, se⟩).2
          = [Event.configureEnv startCapabilities,
             Event.linked (importExtend wl customImports),
             Event.setStatusRunning, Event.entryCall] ++ Event.cleanupCall :: t := by
        rw [← ht]
        rfl
      obtain ⟨hnc, _, _, _⟩ := all_print_not_special hall
      constructor
      · rw [htr]
        simp [List.count_append, List.count_cons,
          List.count_eq_zero_of_not_mem hnc]
      · refine ⟨[Event.configureEnv startCapabilities,
          Event.linked (importExtend wl customImports), Event.setStatusRunning],
          Event.cleanupCall :: t, by simpa using htr, by simp, by simp⟩
  | trap m =>
      obtain ⟨t, ht, hall⟩ := finishRun_shape
        ⟨.ok u, .ok u2, .ok wl, .ok u3, .ok u4, true, .trap m, so, se⟩ (.error m)
        [Event.configureEnv startCapabilities,
         Event.linked (importExtend wl customImports),
         Event.setStatusRunning, Event.entryCall]
      have htr : (start ⟨.ok u, .ok u2, .ok wl, .ok u3, .ok u4, true, .trap m, so, se⟩).2
          = [Event.configureEnv startCapabilities,
             Event.linked (importExtend wl customImports),
             Event.setStatusRunning, Event.entryCall] ++ Event.cleanupCall :: t := by
        rw [← ht]
        rfl
      obtain ⟨hnc, _, _, _⟩ := all_print_not_special hall
      constructor
      · rw [htr]
        simp [List.count_append, List.count_cons,
          List.count_eq_zero_of_not_mem hnc]
      · refine ⟨[Event.configureEnv startCapabilities,
          Event.linked (importExtend wl customImports), Event.setStatusRunning],
          Event.cleanupCall :: t, by simpa using htr, by simp, by simp⟩

/-- C1 witness: on a concrete world whose entry point traps, cleanup is
counted exactly once and occurs after the entry call. -/
theorem c1_cleanup_once_when_call_returns_witness :
    ((start ⟨.ok (), .ok (), .ok [], .ok (), .ok (), true, .trap "boom",
        .ok "", .ok ""⟩).2.count Event.cleanupCall = 1 ∧
     ∃ l1 l2, (start ⟨.ok (), .ok (), .ok [], .ok (), .ok (), true, .trap "boom",
        .ok "", .ok ""⟩).2 = l1 ++ Event.entryCall :: l2 ∧
       Event.cleanupCall ∉ l1 ∧ Event.cleanupCall ∈ l2) :=
  c1_cleanup_once_when_call_returns
    ⟨.ok (), .ok (), .ok [], .ok (), .ok (), true, .trap "boom", .ok "", .ok ""⟩
    (by decide) (by decide)

/-- C1 counterexample: on a concrete world whose entry-point call
panics the host-visible call stack, the entry point was invoked but
cleanup is never reached (it is counted zero times), so cleanup is not
in a guaranteed-finally position. -/
theorem c1_host_panic_bypasses_cleanup :
    Event.entryCall ∈ (start ⟨.ok (), .ok (), .ok [], .ok (), .ok (), true,
      .hostPanic, .ok "", .ok ""⟩).2 ∧
    (start ⟨.ok (), .ok (), .ok [], .ok (), .ok (), true,
      .hostPanic, .ok "", .ok ""⟩).2.count Event.cleanupCall = 0 := by
  decide

/-- C2: when the entry point traps, the trap is reported as a printed
"Runtime Error: ..." line and `start` returns normally (`Ok`); every
loader, environment-finalization, WASI-import, instantiation or
initialization failure instead propagates as a fatal error to the
caller. -/
theorem c2_trap_reported_setup_fatal (w : World) :
    (∀ m wl so se,
      w.module_load = .ok () → w.env_finalize = .ok () → w.wasi_imports = .ok wl →
      w.instantiate = .ok () → w.initialize_env = .ok () → w.has_start_export = true →
      w.call_outcome = CallOutcome.trap m →
      w.stdout_drain = .ok so → w.stderr_drain = .ok se →
      (start w).1 = Outcome.ok ∧
        Event.printLine ("Runtime Error: " ++ m) ∈ (start w).2) ∧
    (∀ e, w.module_load = .error e → (start w).1 = Outcome.fatal e) ∧
    (∀ e, w.module_load = .ok () → w.env_finalize = .error e →
      (start w).1 = Outcome.fatal e) ∧
    (∀ e, w.module_load = .ok () → w.env_finalize = .ok () →
      w.wasi_imports = .error e → (start w).1 = Outcome.fatal e) ∧
    (∀ e wl, w.module_load = .ok () → w.env_finalize = .ok () →
      w.wasi_imports = .ok wl → w.instantiate = .error e →
      (start w).1 = Outcome.fatal e) ∧
    (∀ e wl, w.module_load = .ok () → w.env_finalize = .ok () →
      w.wasi_imports = .ok wl → w.instantiate = .ok () →
      w.initialize_env = .error e → (start w).1 = Outcome.fatal e) := by
  obtain ⟨ml, ef, wi, inst, ini, hs, co, sod, sed⟩ := w
  refine ⟨?_, ?_, ?_, ?_, ?_, ?_⟩
  · rintro m wl so se rfl rfl rfl rfl rfl rfl rfl rfl rfl
    refine ⟨rfl, ?_⟩
    simp [start, finishRun, streamReport]
  · rintro e rfl
    rfl
  · rintro e rfl rfl
    rfl
  · rintro e rfl rfl rfl
    rfl
  · rintro e wl rfl rfl rfl rfl
    rfl
  · rintro e wl rfl rfl rfl rfl rfl
    rfl

/-- C2 witness: a concrete trapping world returns `Ok` with the
diagnostic printed, and a concrete load failure propagates fatally. -/
theorem c2_trap_reported_setup_fatal_witness :
    ((start ⟨.ok (), .ok (), .ok [], .ok (), .ok (), true, .trap "oops",
        .ok "", .ok ""⟩).1 = Outcome.ok ∧
      Event.printLine ("Runtime Error: " ++ "oops")
        ∈ (start ⟨.ok (), .ok (), .ok [], .ok (), .ok (), true, .trap "oops",
            .ok "", .ok ""⟩).2) ∧
    (start ⟨.error "bad wasm", .ok (), .ok [], .ok (), .ok (), true, .success,
        .ok "", .ok ""⟩).1 = Outcome.fatal "bad wasm" :=
  ⟨(c2_trap_reported_setup_fatal
      ⟨.ok (), .ok (), .ok [], .ok (), .ok (), true, .trap "oops", .ok "", .ok ""⟩).1
      "oops" [] "" "" rfl rfl rfl rfl rfl rfl rfl rfl rfl,
   (c2_trap_reported_setup_fatal
      ⟨.error "bad wasm", .ok (), .ok [], .ok (), .ok (), true, .success,
        .ok "", .ok ""⟩).2.1 "bad wasm" rfl⟩

/-- C5: in every execution whose trace reaches the entry-point call,
the thread-status transition to running occurs strictly before the
entry-point call: the trace splits around a `setStatusRunning` event
with no entry call before it and the entry call after it. -/
theorem c5_running_set_before_entry (w : World)
    (hc : Event.entryCall ∈ (start w).2) :
    ∃ l1 l2, (start w).2 = l1 ++ Event.setStatusRunning :: l2 ∧
      Event.entryCall ∉ l1 ∧ Event.entryCall ∈ l2 := by
  obtain ⟨ml, ef, wi, inst, ini, hs, co, sod, sed⟩ := w
  cases ml with
  | error e => simp [start] at hc
  | ok u =>
  cases ef with
  | error e => simp [start] at hc
  | ok u2 =>
  cases wi with
  | error e => simp [start] at hc
  | ok wl =>
  cases inst with
  | error e => simp [start] at hc
  | ok u3 =>
  cases ini with
  | error e => simp [start] at hc
  | ok u4 =>
  cases hs with
  | false => simp [start] at hc
  | true =>
  cases co with
  | hostPanic =>
      exact ⟨[Event.configureEnv startCapabilities,
        Event.linked (importExtend wl customImports)],
        [Event.entryCall], rfl, by simp, by simp⟩
  | success =>
      obtain ⟨t, ht, _⟩ := finishRun_shape
        ⟨.ok u, .ok u2, .ok wl, .ok u3, .ok u4, true, .success, sod, sed⟩ (.ok ())
        [Event.configureEnv startCapabilities,
         Event.linked (importExtend wl customImports),
         Event.setStatusRunning, Event.entryCall]
      have htr : (start ⟨.ok u, .ok u2, .ok wl, .ok u3, .ok u4, true, .success,
          sod, sed⟩).2
          = [Event.configureEnv startCapabilities,
             Event.linked (importExtend wl customImports),
             Event.setStatusRunning, Event.entryCall] ++ Event.cleanupCall :: t := by
        rw [← ht]
        rfl
      exact ⟨[Event.configureEnv startCapabilities,
        Event.linked (importExtend wl customImports)],
        Event.entryCall :: Event.cleanupCall :: t, by simpa using htr, by simp, by simp⟩
  | trap m =>
      obtain ⟨t, ht, _⟩ := finishRun_shape
        ⟨.ok u, .ok u2, .ok wl, .ok u3, .ok u4, true, .trap m, sod, sed⟩ (.error m)
        [Event.configureEnv startCapabilities,
         Event.linked (importExtend wl customImports),
         Event.setStatusRunning, Event.entryCall]
      have htr : (start ⟨.ok u, .ok u2, .ok wl, .ok u3, .ok u4, true, .trap m,
          sod, sed⟩).2
          = [Event.configureEnv startCapabilities,
             Event.linked (importExtend wl customImports),
             Event.setStatusRunning, Event.entryCall] ++ Event.cleanupCall :: t := by
        rw [← ht]
        rfl
      exact ⟨[Event.configureEnv startCapabilities,
        Event.linked (importExtend wl customImports)],
        Event.entryCall :: Event.cleanupCall :: t, by simpa using htr, by simp, by simp⟩

/-- C5 witness: on a concrete successful world the status transition
precedes the entry call. -/
theorem c5_running_set_before_entry_witness :
    ∃ l1 l2, (start ⟨.ok (), .ok (), .ok [], .ok (), .ok (), true, .success,
        .ok "", .ok ""⟩).2 = l1 ++ Event.setStatusRunning :: l2 ∧
      Event.entryCall ∉ l1 ∧ Event.entryCall ∈ l2 :=
  c5_running_set_before_entry
    ⟨.ok (), .ok (), .ok [], .ok (), .ok (), true, .success, .ok "", .ok ""⟩
    (by decide)

/-- C6: after the entry-point call returns, the trace is exactly:
cleanup, then the stdout report (present only when the drained text is
nonempty), then the stderr report (likewise), then the final status
line — "Success" on success, the "Runtime Error: ..." diagnostic on a
trap. -/
theorem c6_drain_report_order (w : World) (wl : ImportTable FunctionTypeM)
    (so se : String)
    (h1 : w.module_load = .ok ()) (h2 : w.env_finalize = .ok ())
    (h3 : w.wasi_imports = .ok wl) (h4 : w.instantiate = .ok ())
    (h5 : w.initialize_env = .ok ()) (h6 : w.has_start_export = true)
    (h7 : w.stdout_drain = .ok so) (h8 : w.stderr_drain = .ok se) :
    (w.call_outcome = CallOutcome.success →
      (start w).2 =
        [Event.configureEnv startCapabilities,
         Event.linked (importExtend wl customImports),
         Event.setStatusRunning, Event.entryCall, Event.cleanupCall] ++
        streamReport "Std out: " so ++ streamReport "Std err: " se ++
        [Event.printLine "Success"]) ∧
    (∀ m, w.call_outcome = CallOutcome.trap m →
      (start w).2 =
        [Event.configureEnv startCapabilities,
         Event.linked (importExtend wl customImports),
         Event.setStatusRunning, Event.entryCall, Event.cleanupCall] ++
        streamReport "Std out: " so ++ streamReport "Std err: " se ++
        [Event.printLine ("Runtime Error: " ++ m)]) := by
  obtain ⟨ml, ef, wi, inst, ini, hs, co, sod, sed⟩ := w
  subst h1 h2 h3 h4 h5 h6 h7 h8
  constructor
  · rintro rfl
    simp [start, finishRun]
  · rintro m rfl
    simp [start, finishRun]

/-- C6 witness: concrete run with nonempty stdout and empty stderr —
one stdout report, no stderr report, then "Success". -/
theorem c6_drain_report_order_witness :
    (start ⟨.ok (), .ok (), .ok [], .ok (), .ok (), true, .success,
        .ok "hi", .ok ""⟩).2 =
      [Event.configureEnv startCapabilities,
       Event.linked (importExtend [] customImports),
       Event.setStatusRunning, Event.entryCall, Event.cleanupCall] ++
      streamReport "Std out: " "hi" ++ streamReport "Std err: " "" ++
      [Event.printLine "Success"] :=
  (c6_drain_report_order
    ⟨.ok (), .ok (), .ok [], .ok (), .ok (), true, .success, .ok "hi", .ok ""⟩
    [] "hi" "" rfl rfl rfl rfl rfl rfl rfl rfl).1 rfl

/-- C9: when the instantiated module has no `_start` export, the driver
panics (the `.unwrap()` on the export lookup) instead of returning one
of the typed fatal errors. -/
theorem c9_missing_entry_panics (w : World) (wl : ImportTable FunctionTypeM)
    (h1 : w.module_load = .ok ()) (h2 : w.env_finalize = .ok ())
    (h3 : w.wasi_imports = .ok wl) (h4 : w.instantiate = .ok ())
    (h5 : w.initialize_env = .ok ()) (h6 : w.has_start_export = false) :
    (start w).1 = Outcome.panicked ∧ ∀ e, (start w).1 ≠ Outcome.fatal e := by
  obtain ⟨ml, ef, wi, inst, ini, hs, co, sod, sed⟩ := w
  subst h1 h2 h3 h4 h5 h6
  refine ⟨rfl, fun e => ?_⟩
  simp [start]

/-- C9 witness: a concrete world without a `_start` export makes the
driver panic. -/
theorem c9_missing_entry_panics_witness :
    (start ⟨.ok (), .ok (), .ok [], .ok (), .ok (), false, .success,
        .ok "", .ok ""⟩).1 = Outcome.panicked :=
  (c9_missing_entry_panics
    ⟨.ok (), .ok (), .ok [], .ok (), .ok (), false, .success, .ok "", .ok ""⟩
    [] rfl rfl rfl rfl rfl rfl).1

theorem start_trace_shape (w : World) :
    ∃ t, (start w).2 = Event.configureEnv startCapabilities :: t ∧
      ∀ c, Event.configureEnv c ∉ t := by
  obtain ⟨ml, ef, wi, inst, ini, hs, co, sod, sed⟩ := w
  cases ml with
  | error e => exact ⟨[], rfl, by simp⟩
  | ok u =>
  cases ef with
  | error e => exact ⟨[], rfl, by simp⟩
  | ok u2 =>
  cases wi with
  | error e => exact ⟨[], rfl, by simp⟩
  | ok wl =>
  cases inst with
  | error e => exact ⟨[Event.linked (importExtend wl customImports)], rfl, by simp⟩
  | ok u3 =>
  cases ini with
  | error e =>
      exact ⟨[Event.linked (importExtend wl customImports), Event.setStatusRunning],
        rfl, by simp⟩
  | ok u4 =>
  cases hs with
  | false =>
      exact ⟨[Event.linked (importExtend wl customImports), Event.setStatusRunning],
        rfl, by simp⟩
  | true =>
  cases co with
  | hostPanic =>
      exact ⟨[Event.linked (importExtend wl customImports), Event.setStatusRunning,
        Event.entryCall], rfl, by simp⟩
  | success =>
      obtain ⟨t, ht, hall⟩ := finishRun_shape
        ⟨.ok u, .ok u2, .ok wl, .ok u3, .ok u4, true, .success, sod, sed⟩ (.ok ())
        [Event.configureEnv startCapabilities,
         Event.linked (importExtend wl customImports),
         Event.setStatusRunning, Event.entryCall]
      have htr : (start ⟨.ok u, .ok u2, .ok wl, .ok u3, .ok u4, true, .success,
          sod, sed⟩).2
          = [Event.configureEnv startCapabilities,
             Event.linked (importExtend wl customImports),
             Event.setStatusRunning, Event.entryCall] ++ Event.cleanupCall :: t := by
        rw [← ht]
        rfl
      refine ⟨[Event.linked (importExtend wl customImports), Event.setStatusRunning,
        Event.entryCall, Event.cleanupCall] ++ t, by simpa using htr, ?_⟩
      intro c hm
      simp at hm
      exact (all_print_not_special hall).2.2.2 c hm
  | trap m =>
      obtain ⟨t, ht, hall⟩ := finishRun_shape
        ⟨.ok u, .ok u2, .ok wl, .ok u3, .ok u4, true, .trap m, sod, sed⟩ (.error m)
        [Event.configureEnv startCapabilities,
         Event.linked (importExtend wl customImports),
         Event.setStatusRunning, Event.entryCall]
      have htr : (start ⟨.ok u, .ok u2, .ok wl, .ok u3, .ok u4, true, .trap m,
          sod, sed⟩).2
          = [Event.configureEnv startCapabilities,
             Event.linked (importExtend wl customImports),
             Event.setStatusRunning, Event.entryCall] ++ Event.cleanupCall :: t := by
        rw [← ht]
        rfl
      refine ⟨[Event.linked (importExtend wl customImports), Event.setStatusRunning,
        Event.entryCall, Event.cleanupCall] ++ t, by simpa using htr, ?_⟩
      intro c hm
      simp at hm
      exact (all_print_not_special hall).2.2.2 c hm

/-- C10: every execution configures the guest environment with the one
fixed capability set, whose unrestricted-access flag is true and whose
HTTP client capability allows all requests; no execution path
configures any other (restricted) capability set. -/
theorem c10_capabilities_unrestricted (w : World) :
    Event.configureEnv startCapabilities ∈ (start w).2 ∧
    startCapabilities.insecure_allow_all = true ∧
    startCapabilities.http_client.allow_all = true ∧
    ∀ caps, Event.configureEnv caps ∈ (start w).2 → caps = startCapabilities := by
  obtain ⟨t, ht, hfree⟩ := start_trace_shape w
  refine ⟨by rw [ht]; exact List.mem_cons_self _ _, rfl, rfl, ?_⟩
  intro caps hm
  rw [ht] at hm
  rcases List.mem_cons.mp hm with h | h
  · exact Event.configureEnv.inj h
  · exact absurd h (hfree caps)

/-- C10 witness: the capability set observed on a concrete execution is
the allow-all one. -/
theorem c10_capabilities_unrestricted_witness :
    ({ insecure_allow_all := true, http_client := { allow_all := true },
       threading := { max_threads := none, enable_asynchronous_threading := false } }
      : Capabilities) = startCapabilities :=
  (c10_capabilities_unrestricted
    ⟨.error "x", .ok (), .ok [], .ok (), .ok (), true, .success, .ok "", .ok ""⟩).2.2.2
    { insecure_allow_all := true, http_client := { allow_all := true },
      threading := { max_threads := none, enable_asynchronous_threading := false } }
    (by decide)

end Nor2
